import Mathlib

/-!
Verification model of the telegram-signal-parser repository.

Shallow embedding conventions used throughout this file:

* Prices are modelled in integer cents (`ℤ`): the source rounds every price to
  2 fractional digits at extraction time (`round(x, 2)` in
  `parser/signal_parser.py`), and every later arithmetic step (the fixed 0.50
  adjustment, the validator comparisons, the hash content) stays on that
  0.01 grid, so a price `p` is represented by the integer `100 * p`.
  The configured maximum stop distance (`settings.max_sl_distance`) is
  likewise given in cents.
* Raw numeric values captured by the regular expressions are arbitrary decimal
  numbers and are modelled as `ℚ`; `pyRound2cents` maps them onto the grid
  with Python's round-half-to-even semantics (mathematical reading of
  `round(x, 2)`, then scaled by 100).
* Timestamps are seconds as `ℤ` (`datetime.utcnow()` differences are compared
  with whole-second thresholds in the source; the store contract only
  promises second resolution).
* The five regular-expression field extractors of `SignalParser`
  (`_extract_symbol`, `_extract_direction`, `_extract_entry_range`,
  `_extract_stop_loss`, `_extract_take_profits`) call into Python's `re`
  library; they are modelled as an abstract `Extractors` bundle of total
  functions with the source signatures, and `parse` reproduces the exact
  control flow of `SignalParser.parse` on top of them.
* The MD5 digest in `ParsedSignal.generate_hash` is a deterministic function
  of the canonical content string, so the fingerprint is modelled by that
  content string itself: two fingerprints are equal exactly when the digested
  content strings are equal.
-/

/-- Python round-half-to-even of `q` to 2 fractional digits, returned in
integer cents: the mathematical reading of `round(q, 2) * 100`. Implemented
with integer floor division so that the kernel can evaluate it. -/
def pyRound2cents (q : ℚ) : ℤ :=
  let n : ℤ := q.num * 100
  let d : ℤ := (q.den : ℤ)
  let f : ℤ := Int.fdiv n d
  let r : ℤ := n - f * d
  if 2 * r < d then f
  else if d < 2 * r then f + 1
  else if f % 2 = 0 then f else f + 1

/-- Python `str.upper()` restricted to ASCII, which is all the source compares
(symbols and the BUY/SELL/LONG/SHORT keywords). -/
def strUpper (s : String) : String := String.mk (s.data.map Char.toUpper)

/-- Helper for substring search: does the second list start with the first? -/
def isPrefixList : List Char → List Char → Bool
  | [], _ => true
  | _ :: _, [] => false
  | a :: as, b :: bs => a == b && isPrefixList as bs

/-- Helper for substring search over character lists. -/
def containsSub (hay needle : List Char) : Bool :=
  match hay with
  | [] => needle.isEmpty
  | _ :: t => isPrefixList needle hay || containsSub t needle

/-- Python's `needle in hay` substring test on strings. -/
def pyIn (needle hay : String) : Bool := containsSub hay.data needle.data

/-- Python `str.strip()` with no argument: remove whitespace from both ends.
Models `telegram/client.py` line 71 (`if not text.strip()`). -/
def pyStrip (s : String) : String :=
  String.mk (((s.data.dropWhile Char.isWhitespace).reverse.dropWhile
    Char.isWhitespace).reverse)

/-- `SignalParser._clean_text` (signal_parser.py lines 135-139): removes the
markdown emphasis characters asterisk, underscore, backtick and tilde, i.e.
Python's `re.sub(r'[\*_&#96;~]', '', text)`. -/
def clean_text (s : String) : String :=
  String.mk (s.data.filter
    (fun c => !(c == '*' || c == '_' || c == Char.ofNat 96 || c == '~')))

/-- The `ParsedSignal` pydantic model (signal_parser.py lines 9-16), prices in
integer cents. -/
structure ParsedSignal where
  direction : String
  entry_min : ℤ
  entry_max : ℤ
  stop_loss : ℤ
  take_profits : List ℤ
  symbol : String := "XAUUSD"
deriving DecidableEq

/-- Renders one 2-decimal price for the hash content string. The source embeds
Python's decimal rendering of the float; any rendering that is injective on
the 0.01 grid produces the same equality behaviour, so the cents integer is
rendered directly. -/
def price2String (c : ℤ) : String := toString c

/-- `ParsedSignal.generate_hash` (signal_parser.py lines 18-31): the canonical
content string `symbol|direction|entry_min|entry_max|stop_loss|sorted_tps`
with the take-profit list sorted ascending. All fields here are already on
the 0.01 grid, so the source's `round(·, 2)` inside the hash is the identity
and the MD5 digest is modelled by the content string itself (see the header
comment). -/
def ParsedSignal.generate_hash (s : ParsedSignal) : String :=
  let sorted_tps := List.insertionSort (· ≤ ·) s.take_profits
  s.symbol ++ "|" ++ s.direction ++ "|" ++
    price2String s.entry_min ++ "|" ++ price2String s.entry_max ++ "|" ++
    price2String s.stop_loss ++ "|" ++ toString (sorted_tps.map price2String)

/-- `SignalParser._adjust_prices` (signal_parser.py lines 141-156):
the unconditional 0.50 (= 50 cents) adjustment. BUY lowers the stop loss and
raises every take profit by 0.50; any other direction (the source `else`
branch, reached only with "SELL") does the opposite. -/
def adjust_prices (signal : ParsedSignal) : ParsedSignal :=
  let adjustment : ℤ := 50
  if signal.direction = "BUY" then
    { signal with
        stop_loss := signal.stop_loss - adjustment,
        take_profits := signal.take_profits.map (· + adjustment) }
  else
    { signal with
        stop_loss := signal.stop_loss + adjustment,
        take_profits := signal.take_profits.map (· - adjustment) }

/-- The five regex field extractors of `SignalParser` (signal_parser.py lines
158-230), abstracted as total functions with the source signatures: the
symbol extractor returns the canonicalized match ("GOLD"/"XAU/USD" aliases
already mapped to "XAUUSD" as in `_extract_symbol`), the direction extractor
returns the normalized "BUY"/"SELL" as in `_extract_direction`, the entry
extractor returns the `(min, max)` pair or `none` as in
`_extract_entry_range`, and the take-profit extractor returns the
deduplicated list of found levels as in `_extract_take_profits`. -/
structure Extractors where
  extract_symbol : String → Option String
  extract_direction : String → Option String
  extract_entry_range : String → Option (ℚ × ℚ)
  extract_stop_loss : String → Option ℚ
  extract_take_profits : String → List ℚ

/-- `SignalParser.parse` (signal_parser.py lines 74-133): clean the text,
require symbol (and membership in the allowed list), direction, entry,
stop loss and a non-empty take-profit list, round every numeric field to
2 digits, then apply the price adjustment. Any missing mandatory field makes
the whole extraction return `none`; the source's `except` fallback also
returns `none`, so the function never raises. Python truthiness of the
intermediate values is preserved: an empty-string symbol or direction is
treated as missing. -/
def parse (E : Extractors) (allowed_symbols : List String) (text : String) :
    Option ParsedSignal :=
  let cleaned_text := clean_text text
  match E.extract_symbol cleaned_text with
  | none => none
  | some sym =>
    if sym = "" ∨ sym ∉ allowed_symbols then none
    else
      let symbol := if sym = "GOLD" ∨ sym = "XAUUSD" then "XAUUSD" else sym
      match E.extract_direction cleaned_text with
      | none => none
      | some direction =>
        if direction = "" then none
        else
          match E.extract_entry_range cleaned_text with
          | none => none
          | some (entry_min, entry_max) =>
            match E.extract_stop_loss cleaned_text with
            | none => none
            | some stop_loss =>
              match E.extract_take_profits cleaned_text with
              | [] => none
              | tp :: tps =>
                let signal : ParsedSignal :=
                  { direction := direction,
                    entry_min := pyRound2cents entry_min,
                    entry_max := pyRound2cents entry_max,
                    stop_loss := pyRound2cents stop_loss,
                    take_profits := (tp :: tps).map pyRound2cents,
                    symbol := symbol }
                some (adjust_prices signal)

/-- `SignalStatus` (database/models.py lines 19-28). -/
inductive SignalStatus where
  | PROCESS
  | MODIFY
  | DONE
  | INVALID
  | ERROR
  | EXPIRED
deriving DecidableEq

/-- Python truthiness of the optional take-profit fields as used by
`validate_trading_levels` (`if self.take_profit_2 and ...`): present and
non-zero. -/
def pyTruthy (o : Option ℤ) : Bool :=
  match o with
  | none => false
  | some v => v != 0

/-- The rejection reasons raised by
`TradingSignalSchema.validate_trading_levels` (models.py lines 129-165), one
constructor per `raise ValueError(...)` site, carrying the offending values
that the source interpolates into the human-readable message. -/
inductive TradeLevelError where
  | slNotBeyondEntry (sl entry : ℤ)
  | slDistanceExceeded (dist max_sl : ℤ)
  | tp1NotBeyondEntry (tp1 entry : ℤ)
  | tp2NotBeyondTp1 (tp2 tp1 : ℤ)
  | tp3NotBeyondTp2 (tp3 tp2 : ℤ)
deriving DecidableEq

/-- `TradingSignalSchema.validate_trading_levels` (models.py lines 129-165):
the direction-dependent ordering and stop-distance checks, stopping at the
first violated rule. The source's `if self.direction == SignalDirection.BUY`
sends every other direction through the SELL branch; the optional
take-profits are tested with Python truthiness. -/
def validate_trading_levels (direction : String)
    (entry_min entry_max stop_loss take_profit_1 : ℤ)
    (take_profit_2 take_profit_3 : Option ℤ) (max_sl : ℤ) :
    Except TradeLevelError Unit :=
  if direction = "BUY" then
    if entry_min ≤ stop_loss then
      .error (.slNotBeyondEntry stop_loss entry_min)
    else
      let sl_distance := entry_min - stop_loss
      if max_sl < sl_distance then
        .error (.slDistanceExceeded sl_distance max_sl)
      else if take_profit_1 ≤ entry_max then
        .error (.tp1NotBeyondEntry take_profit_1 entry_max)
      else if pyTruthy take_profit_2 ∧ take_profit_2.getD 0 ≤ take_profit_1 then
        .error (.tp2NotBeyondTp1 (take_profit_2.getD 0) take_profit_1)
      else if pyTruthy take_profit_3 ∧ pyTruthy take_profit_2 ∧
          take_profit_3.getD 0 ≤ take_profit_2.getD 0 then
        .error (.tp3NotBeyondTp2 (take_profit_3.getD 0) (take_profit_2.getD 0))
      else .ok ()
  else
    if stop_loss ≤ entry_max then
      .error (.slNotBeyondEntry stop_loss entry_max)
    else
      let sl_distance := stop_loss - entry_max
      if max_sl < sl_distance then
        .error (.slDistanceExceeded sl_distance max_sl)
      else if entry_min ≤ take_profit_1 then
        .error (.tp1NotBeyondEntry take_profit_1 entry_min)
      else if pyTruthy take_profit_2 ∧ take_profit_1 ≤ take_profit_2.getD 0 then
        .error (.tp2NotBeyondTp1 (take_profit_2.getD 0) take_profit_1)
      else if pyTruthy take_profit_3 ∧ pyTruthy take_profit_2 ∧
          take_profit_2.getD 0 ≤ take_profit_3.getD 0 then
        .error (.tp3NotBeyondTp2 (take_profit_3.getD 0) (take_profit_2.getD 0))
      else .ok ()

/-- Any `ValueError` raised while constructing `TradingSignalSchema`: a
direction outside the `SignalDirection` enum, a violated `gt=0` field
constraint, or a `validate_trading_levels` rejection. -/
inductive SchemaError where
  | invalidDirection (d : String)
  | nonPositiveField
  | tradeLevel (e : TradeLevelError)
deriving DecidableEq

/-- The validated `TradingSignalSchema` (models.py lines 104-119), prices in
cents. -/
structure TradingSignalSchema where
  telegram_message_id : ℤ
  telegram_channel_id : ℤ
  symbol : String
  direction : String
  entry_min : ℤ
  entry_max : ℤ
  stop_loss : ℤ
  take_profit_1 : ℤ
  take_profit_2 : Option ℤ
  take_profit_3 : Option ℤ
  raw_message : String
  content_hash : String
  status : SignalStatus
deriving DecidableEq

/-- Pydantic construction of `TradingSignalSchema`: the `SignalDirection`
enum coercion, the `gt=0` field constraints, the `entry_max_greater_than_min`
field validator (models.py lines 121-127, which coerces a too-small
`entry_max` up to `entry_min`), then the `validate_trading_levels` model
validator on the coerced values. Any failure is a `ValueError`. -/
def mk_trading_signal_schema (telegram_message_id telegram_channel_id : ℤ)
    (symbol direction : String) (entry_min entry_max stop_loss : ℤ)
    (take_profit_1 : ℤ) (take_profit_2 take_profit_3 : Option ℤ)
    (raw_message content_hash : String) (status : SignalStatus)
    (max_sl : ℤ) : Except SchemaError TradingSignalSchema :=
  if ¬(direction = "BUY" ∨ direction = "SELL") then
    .error (.invalidDirection direction)
  else if ¬(0 < entry_min ∧ 0 < entry_max ∧ 0 < stop_loss ∧
      0 < take_profit_1 ∧ (∀ v ∈ take_profit_2, 0 < v) ∧
      (∀ v ∈ take_profit_3, 0 < v)) then
    .error .nonPositiveField
  else
    match validate_trading_levels direction entry_min
        (if entry_max < entry_min then entry_min else entry_max) stop_loss
        take_profit_1 take_profit_2 take_profit_3 max_sl with
    | .error e => .error (.tradeLevel e)
    | .ok _ =>
      .ok { telegram_message_id := telegram_message_id,
            telegram_channel_id := telegram_channel_id,
            symbol := symbol, direction := direction,
            entry_min := entry_min,
            entry_max := if entry_max < entry_min then entry_min else entry_max,
            stop_loss := stop_loss, take_profit_1 := take_profit_1,
            take_profit_2 := take_profit_2, take_profit_3 := take_profit_3,
            raw_message := raw_message, content_hash := content_hash,
            status := status }

/-- One row of the `signals` table (database/models.py lines 38-71), prices in
cents, timestamps in seconds. -/
structure SignalRecord where
  id : ℕ
  telegram_message_id : ℤ
  telegram_channel_id : ℤ
  symbol : String
  direction : String
  entry_min : ℤ
  entry_max : ℤ
  stop_loss : ℤ
  take_profit_1 : ℤ
  take_profit_2 : Option ℤ
  take_profit_3 : Option ℤ
  status : SignalStatus
  raw_message : String
  content_hash : String
  created_at : ℤ
  updated_at : ℤ
deriving DecidableEq

/-- The signal store behind `DatabaseManager`: the rows of the `signals`
table plus the autoincrement counter. -/
structure Store where
  records : List SignalRecord
  next_id : ℕ
deriving DecidableEq

/-- `DatabaseManager.get_signal_by_remote_id` (connection.py lines 84-95):
the row for a (channel id, message id) pair, unique by the table's
`uix_channel_message` constraint. -/
def get_signal_by_remote_id (st : Store) (channel_id message_id : ℤ) :
    Option SignalRecord :=
  st.records.find? (fun r =>
    r.telegram_channel_id == channel_id && r.telegram_message_id == message_id)

/-- `DatabaseManager.get_latest_signal_by_hash` (connection.py lines 97-110):
the row with the given content hash and the greatest `created_at`
(`ORDER BY created_at DESC LIMIT 1`; the order among equal timestamps is
backend-dependent, here the earliest such row in table order). -/
def get_latest_signal_by_hash (st : Store) (content_hash : String) :
    Option SignalRecord :=
  (st.records.filter (fun r => r.content_hash == content_hash)).foldl
    (fun acc r =>
      match acc with
      | none => some r
      | some best => if best.created_at < r.created_at then some r else some best)
    none

/-- The row created by `DatabaseManager.save_signal` from a schema dump:
fresh autoincrement id, `created_at`/`updated_at` set to the current time by
the column defaults. -/
def record_of_schema (s : TradingSignalSchema) (id : ℕ) (now : ℤ) :
    SignalRecord :=
  { id := id,
    telegram_message_id := s.telegram_message_id,
    telegram_channel_id := s.telegram_channel_id,
    symbol := s.symbol, direction := s.direction,
    entry_min := s.entry_min, entry_max := s.entry_max,
    stop_loss := s.stop_loss, take_profit_1 := s.take_profit_1,
    take_profit_2 := s.take_profit_2, take_profit_3 := s.take_profit_3,
    status := s.status, raw_message := s.raw_message,
    content_hash := s.content_hash,
    created_at := now, updated_at := now }

/-- `DatabaseManager.save_signal` (connection.py lines 56-77): insert one new
row and return its id. -/
def save_signal (st : Store) (s : TradingSignalSchema) (now : ℤ) : ℕ × Store :=
  (st.next_id,
   { records := st.records ++ [record_of_schema s st.next_id now],
     next_id := st.next_id + 1 })

/-- The field update applied by `TelegramSignalClient._process_signal` lines
122-124 together with `DatabaseManager.update_signal` (connection.py lines
112-136): every schema field except `status` is taken from the schema dump,
`status` is forced to `MODIFY`, `updated_at` is refreshed; `id` and
`created_at` are untouched. -/
def apply_update (r : SignalRecord) (s : TradingSignalSchema) (now : ℤ) :
    SignalRecord :=
  { r with
      telegram_message_id := s.telegram_message_id,
      telegram_channel_id := s.telegram_channel_id,
      symbol := s.symbol, direction := s.direction,
      entry_min := s.entry_min, entry_max := s.entry_max,
      stop_loss := s.stop_loss, take_profit_1 := s.take_profit_1,
      take_profit_2 := s.take_profit_2, take_profit_3 := s.take_profit_3,
      raw_message := s.raw_message, content_hash := s.content_hash,
      status := SignalStatus.MODIFY, updated_at := now }

/-- `DatabaseManager.update_signal` specialised to the one update issued by
the classifier (schema dump plus `status = MODIFY`). -/
def update_signal (st : Store) (signal_id : ℕ) (s : TradingSignalSchema)
    (now : ℤ) : Store :=
  { st with
      records := st.records.map (fun r =>
        if r.id == signal_id then apply_update r s now else r) }

/-- The expiry predicate of `DatabaseManager.expire_old_signals`
(connection.py lines 148-184): status `PROCESS` or `MODIFY` and
`created_at < now - max_age_seconds`. -/
def should_expire (max_age_seconds now : ℤ) (r : SignalRecord) : Bool :=
  (r.status == .PROCESS || r.status == .MODIFY) &&
    decide (r.created_at < now - max_age_seconds)

/-- `DatabaseManager.expire_old_signals` (connection.py lines 148-184): mark
every matching row `EXPIRED`, refresh its `updated_at`, and return the number
of rows changed (`result.rowcount`). -/
def expire_old_signals (st : Store) (max_age_seconds : ℤ) (now : ℤ) :
    Store × ℕ :=
  ({ st with
      records := st.records.map (fun r =>
        if should_expire max_age_seconds now r then
          { r with status := SignalStatus.EXPIRED, updated_at := now }
        else r) },
   (st.records.filter (should_expire max_age_seconds now)).length)

/-- The outcome of processing one message event, one constructor per exit of
`TelegramSignalClient._process_event_safely` / `_process_signal`
(telegram/client.py lines 63-144). `errored` is the `except Exception`
branch of `_process_event_safely` (reached from `_process_signal` only via
the uncaught `IndexError` of `parsed.take_profits[0]` on an empty
take-profit list; `ValueError` is caught earlier inside
`_create_signal_schema`). -/
inductive Outcome where
  | emptyIgnored
  | prefiltered
  | notASignal
  | duplicateIgnored
  | unchangedEditIgnored
  | alreadyExistsIgnored
  | rejected (e : SchemaError)
  | errored
  | created (id : ℕ)
  | updated (id : ℕ)
deriving DecidableEq

/-- One write issued against the store. -/
inductive WriteOp where
  | create (id : ℕ)
  | update (id : ℕ)
deriving DecidableEq

/-- Result of `TelegramSignalClient._create_signal_schema`
(telegram/client.py lines 146-167). -/
inductive CreateSchemaResult where
  | ok (s : TradingSignalSchema)
  | validationFailed (e : SchemaError)
  | indexError
deriving DecidableEq

/-- `TelegramSignalClient._create_signal_schema` (telegram/client.py lines
146-167): build the pydantic schema from the parsed signal, with
`take_profit_1 = parsed.take_profits[0]` (an uncaught `IndexError` when the
list is empty), `take_profit_2`/`take_profit_3` from indices 1 and 2 when
present; a `ValueError` is caught and logged
(`_handle_invalid_signal`), yielding a rejection. -/
def create_signal_schema (message_id chat_id : ℤ) (parsed : ParsedSignal)
    (raw_text content_hash : String) (status : SignalStatus) (max_sl : ℤ) :
    CreateSchemaResult :=
  match parsed.take_profits with
  | [] => .indexError
  | tp1 :: rest =>
    match mk_trading_signal_schema message_id chat_id parsed.symbol
        parsed.direction parsed.entry_min parsed.entry_max parsed.stop_loss
        tp1 rest[0]? rest[1]? raw_text content_hash status max_sl with
    | .ok s => .ok s
    | .error e => .validationFailed e

/-- `TelegramSignalClient._process_signal` (telegram/client.py lines 87-144):
parse, hash, duplicate-burst check for new messages, then the edit/new
dispatch on the (channel, message) lookup. Returns the outcome, the store
after the invocation, and the list of writes issued. -/
def process_signal (E : Extractors) (allowed_symbols : List String)
    (max_sl : ℤ) (chat_id message_id : ℤ) (text : String) (is_edit : Bool)
    (now : ℤ) (st : Store) : Outcome × Store × List WriteOp :=
  match parse E allowed_symbols text with
  | none => (.notASignal, st, [])
  | some parsed =>
    let content_hash := parsed.generate_hash
    let duplicate_burst : Bool :=
      if is_edit then false
      else
        match get_latest_signal_by_hash st content_hash with
        | none => false
        | some latest => decide (now - latest.created_at < 5)
    if duplicate_burst then (.duplicateIgnored, st, [])
    else
      match get_signal_by_remote_id st chat_id message_id with
      | some existing =>
        if is_edit then
          if existing.content_hash == content_hash then
            (.unchangedEditIgnored, st, [])
          else
            match create_signal_schema message_id chat_id parsed text
                content_hash .MODIFY max_sl with
            | .indexError => (.errored, st, [])
            | .validationFailed e => (.rejected e, st, [])
            | .ok schema =>
              (.updated existing.id, update_signal st existing.id schema now,
               [.update existing.id])
        else (.alreadyExistsIgnored, st, [])
      | none =>
        match create_signal_schema message_id chat_id parsed text
            content_hash .PROCESS max_sl with
        | .indexError => (.errored, st, [])
        | .validationFailed e => (.rejected e, st, [])
        | .ok schema =>
          ((.created (save_signal st schema now).1),
           (save_signal st schema now).2,
           [.create (save_signal st schema now).1])

/-- `TelegramSignalClient._is_potential_signal` (telegram/client.py lines
169-173): the raw text, uppercased, must contain one of the configured
filter symbols and one of BUY/SELL/LONG/SHORT as a substring. -/
def is_potential_signal (filter_symbols : List String) (text : String) :
    Bool :=
  let text_upper := strUpper text
  (filter_symbols.any (fun s => pyIn s text_upper)) &&
    (["BUY", "SELL", "LONG", "SHORT"].any (fun d => pyIn d text_upper))

/-- `TelegramSignalClient._process_event_safely` (telegram/client.py lines
63-85): skip blank texts, apply the keyword pre-filter to the raw text, then
run `_process_signal` (whose uncaught exceptions are logged and swallowed,
modelled by the `errored` outcome). -/
def process_event_safely (E : Extractors) (allowed_symbols : List String)
    (filter_symbols : List String) (max_sl : ℤ) (chat_id message_id : ℤ)
    (text : String) (is_edit : Bool) (now : ℤ) (st : Store) :
    Outcome × Store × List WriteOp :=
  if pyStrip text = "" then (.emptyIgnored, st, [])
  else if ¬ is_potential_signal filter_symbols text then (.prefiltered, st, [])
  else process_signal E allowed_symbols max_sl chat_id message_id text
    is_edit now st

/-- A fixed extractor bundle for concrete runs: the field results of the
source regexes on the text `"XAUUSD BUY Entry: 2000 SL: 1990 TP: 2010"`. -/
def exampleExtractors : Extractors :=
  { extract_symbol := fun _ => some "XAUUSD",
    extract_direction := fun _ => some "BUY",
    extract_entry_range := fun _ => some ((2000 : ℚ), (2000 : ℚ)),
    extract_stop_loss := fun _ => some (1990 : ℚ),
    extract_take_profits := fun _ => [(2010 : ℚ)] }

/-- An extractor bundle that finds nothing in any text. -/
def noneExtractors : Extractors :=
  { extract_symbol := fun _ => none,
    extract_direction := fun _ => none,
    extract_entry_range := fun _ => none,
    extract_stop_loss := fun _ => none,
    extract_take_profits := fun _ => [] }

/-- The parsed signal produced by `exampleExtractors` after rounding and the
0.50 adjustment. -/
def exampleParsed : ParsedSignal :=
  { direction := "BUY", entry_min := 200000, entry_max := 200000,
    stop_loss := 198950, take_profits := [201050], symbol := "XAUUSD" }

example :
    parse exampleExtractors ["XAUUSD", "GOLD"] "XAUUSD BUY Entry: 2000 SL: 1990 TP: 2010" =
      some exampleParsed := by decide

example :
    (process_signal exampleExtractors ["XAUUSD", "GOLD"] 1500 1 100
      "XAUUSD BUY Entry: 2000 SL: 1990 TP: 2010" true 0 ⟨[], 0⟩).1 =
      Outcome.created 0 := by decide

/-- C3: the Normalizer applies the fixed 0.50 adjustment (50 cents) exactly
once: for BUY the adjusted stop loss is the raw one minus 0.50 and every
adjusted take profit is the raw one plus 0.50; for SELL the signs invert;
the entry bounds are unchanged; and every signal `parse` hands to hashing
and validation is exactly an adjusted signal (the adjustment is the last
step of extraction, so downstream stages see only adjusted values). -/
theorem C3_adjustment_signs (s : ParsedSignal) :
    (s.direction = "BUY" →
      adjust_prices s =
        { s with stop_loss := s.stop_loss - 50,
                 take_profits := s.take_profits.map (· + 50) }) ∧
    (s.direction = "SELL" →
      adjust_prices s =
        { s with stop_loss := s.stop_loss + 50,
                 take_profits := s.take_profits.map (· - 50) }) ∧
    (adjust_prices s).entry_min = s.entry_min ∧
    (adjust_prices s).entry_max = s.entry_max ∧
    (∀ (E : Extractors) (allowed_symbols : List String) (text : String)
        (out : ParsedSignal),
      parse E allowed_symbols text = some out →
      ∃ raw, out = adjust_prices raw) := by
  refine ⟨?_, ?_, ?_, ?_, ?_⟩
  · intro h
    simp [adjust_prices, h]
  · intro h
    rw [adjust_prices]
    rw [h]
    simp
  · rw [adjust_prices]
    split <;> rfl
  · rw [adjust_prices]
    split <;> rfl
  · intro E allowed_symbols text out h
    simp only [parse] at h
    split at h
    · exact absurd h (by simp)
    · split at h
      · exact absurd h (by simp)
      · split at h
        · exact absurd h (by simp)
        · split at h
          · exact absurd h (by simp)
          · split at h
            · exact absurd h (by simp)
            · split at h
              · exact absurd h (by simp)
              · split at h
                · exact absurd h (by simp)
                · exact ⟨_, (Option.some.inj h).symm⟩

/-- Concrete instance of the adjustment signs: a BUY and a SELL signal. -/
def adjSigBuy : ParsedSignal :=
  { direction := "BUY", entry_min := 200000, entry_max := 200000,
    stop_loss := 199000, take_profits := [201000], symbol := "XAUUSD" }

/-- The SELL twin of `adjSigBuy`. -/
def adjSigSell : ParsedSignal :=
  { direction := "SELL", entry_min := 200000, entry_max := 200000,
    stop_loss := 201000, take_profits := [199000], symbol := "XAUUSD" }

/-- Witness for C3 at concrete BUY and SELL signals. -/
theorem C3_adjustment_signs_witness :
    adjust_prices adjSigBuy =
      { adjSigBuy with stop_loss := adjSigBuy.stop_loss - 50,
                       take_profits := adjSigBuy.take_profits.map (· + 50) } ∧
    adjust_prices adjSigSell =
      { adjSigSell with stop_loss := adjSigSell.stop_loss + 50,
                        take_profits := adjSigSell.take_profits.map (· - 50) } :=
  ⟨(C3_adjustment_signs adjSigBuy).1 rfl,
   (C3_adjustment_signs adjSigSell).2.1 rfl⟩

/-- C4: the fingerprint is invariant under take-profit ordering — two parsed
signals with equal symbol, direction, entry bounds and stop loss whose
take-profit multisets agree produce the identical fingerprint string (all
prices here live on the 0.01 grid, on which the source's rounding inside
the hash is the identity; the MD5 digest of equal content strings is
equal). -/
theorem C4_hash_deterministic (s₁ s₂ : ParsedSignal)
    (hsym : s₁.symbol = s₂.symbol) (hdir : s₁.direction = s₂.direction)
    (hemin : s₁.entry_min = s₂.entry_min)
    (hemax : s₁.entry_max = s₂.entry_max)
    (hsl : s₁.stop_loss = s₂.stop_loss)
    (htp : (↑s₁.take_profits : Multiset ℤ) = (↑s₂.take_profits : Multiset ℤ)) :
    s₁.generate_hash = s₂.generate_hash := by
  have hperm : s₁.take_profits.Perm s₂.take_profits := Multiset.coe_eq_coe.mp htp
  haveI : IsTotal ℤ (· ≤ ·) := ⟨fun a b => le_total a b⟩
  haveI : IsTrans ℤ (· ≤ ·) := ⟨fun _ _ _ hab hbc => le_trans hab hbc⟩
  haveI : IsAntisymm ℤ (· ≤ ·) := ⟨fun _ _ hab hba => le_antisymm hab hba⟩
  have hsort : List.insertionSort (· ≤ ·) s₁.take_profits =
      List.insertionSort (· ≤ ·) s₂.take_profits :=
    List.eq_of_perm_of_sorted
      (((List.perm_insertionSort _ _).trans hperm).trans
        (List.perm_insertionSort _ _).symm)
      (List.sorted_insertionSort _ _) (List.sorted_insertionSort _ _)
  rw [ParsedSignal.generate_hash, ParsedSignal.generate_hash,
    hsym, hdir, hemin, hemax, hsl, hsort]

/-- A three-take-profit signal for the hash-determinism witness. -/
def hashSigA : ParsedSignal :=
  { direction := "BUY", entry_min := 200000, entry_max := 200100,
    stop_loss := 198950, take_profits := [201050, 202050, 203050],
    symbol := "XAUUSD" }

/-- The same content as `hashSigA` with the take profits in another order. -/
def hashSigB : ParsedSignal :=
  { direction := "BUY", entry_min := 200000, entry_max := 200100,
    stop_loss := 198950, take_profits := [203050, 201050, 202050],
    symbol := "XAUUSD" }

/-- Witness for C4: reordered take profits, identical fingerprint. -/
theorem C4_hash_deterministic_witness :
    hashSigA.generate_hash = hashSigB.generate_hash :=
  C4_hash_deterministic hashSigA hashSigB rfl rfl rfl rfl rfl (by decide)

/-- The expiry transition applied to one row. -/
def expired_row (now : ℤ) (r : SignalRecord) : SignalRecord :=
  { r with status := SignalStatus.EXPIRED, updated_at := now }

/-- C7: the sweep transitions exactly the PROCESS/MODIFY rows strictly older
than `now - max_age_seconds` to EXPIRED (refreshing their `updated_at`),
returns the number of such rows, and leaves every other row — in particular
every DONE, INVALID or ERROR row — unchanged. -/
theorem C7_expiry_sweep (st : Store) (max_age_seconds now : ℤ) :
    (expire_old_signals st max_age_seconds now).1.records.length =
      st.records.length ∧
    (expire_old_signals st max_age_seconds now).2 =
      (st.records.filter (should_expire max_age_seconds now)).length ∧
    (∀ r ∈ st.records, (r.status = .PROCESS ∨ r.status = .MODIFY) →
      r.created_at < now - max_age_seconds →
      expired_row now r ∈ (expire_old_signals st max_age_seconds now).1.records) ∧
    (∀ r ∈ st.records, (r.status = .PROCESS ∨ r.status = .MODIFY) →
      ¬ r.created_at < now - max_age_seconds →
      r ∈ (expire_old_signals st max_age_seconds now).1.records) ∧
    (∀ r ∈ st.records,
      (r.status = .DONE ∨ r.status = .INVALID ∨ r.status = .ERROR) →
      r ∈ (expire_old_signals st max_age_seconds now).1.records) ∧
    (∀ r ∈ (expire_old_signals st max_age_seconds now).1.records,
      r ∈ st.records ∨
        ∃ r₀ ∈ st.records, (r₀.status = .PROCESS ∨ r₀.status = .MODIFY) ∧
          r₀.created_at < now - max_age_seconds ∧ r = expired_row now r₀) := by
  have hiff : ∀ r : SignalRecord, should_expire max_age_seconds now r = true ↔
      ((r.status = .PROCESS ∨ r.status = .MODIFY) ∧
        r.created_at < now - max_age_seconds) := by
    intro r
    simp [should_expire]
  refine ⟨by simp [expire_old_signals], rfl, ?_, ?_, ?_, ?_⟩
  · intro r hr h1 h2
    have hse : should_expire max_age_seconds now r = true := (hiff r).mpr ⟨h1, h2⟩
    have := List.mem_map_of_mem (fun r =>
      if should_expire max_age_seconds now r then
        { r with status := SignalStatus.EXPIRED, updated_at := now }
      else r) hr
    simpa [expire_old_signals, expired_row, hse] using this
  · intro r hr h1 h2
    have hse : should_expire max_age_seconds now r = false := by
      rw [Bool.eq_false_iff]
      intro hc
      exact h2 ((hiff r).mp hc).2
    have := List.mem_map_of_mem (fun r =>
      if should_expire max_age_seconds now r then
        { r with status := SignalStatus.EXPIRED, updated_at := now }
      else r) hr
    simpa [expire_old_signals, hse] using this
  · intro r hr h1
    have hse : should_expire max_age_seconds now r = false := by
      rw [Bool.eq_false_iff]
      intro hc
      rcases ((hiff r).mp hc).1 with h | h <;>
        rcases h1 with h' | h' | h' <;> simp [h'] at h
    have := List.mem_map_of_mem (fun r =>
      if should_expire max_age_seconds now r then
        { r with status := SignalStatus.EXPIRED, updated_at := now }
      else r) hr
    simpa [expire_old_signals, hse] using this
  · intro r hr
    simp only [expire_old_signals, List.mem_map] at hr
    obtain ⟨r₀, hr₀, heq⟩ := hr
    by_cases hse : should_expire max_age_seconds now r₀ = true
    · right
      exact ⟨r₀, hr₀, ((hiff r₀).mp hse).1, ((hiff r₀).mp hse).2,
        by rw [← heq]; simp [expired_row, hse]⟩
    · left
      rw [← heq]
      simp [hse]
      exact hr₀

/-- A PROCESS row created 3601 seconds before the sweep at time 0. -/
def row3601 : SignalRecord :=
  { id := 1, telegram_message_id := 10, telegram_channel_id := 1,
    symbol := "XAUUSD", direction := "BUY", entry_min := 200000,
    entry_max := 200000, stop_loss := 198950, take_profit_1 := 201050,
    take_profit_2 := none, take_profit_3 := none,
    status := SignalStatus.PROCESS, raw_message := "m1",
    content_hash := "h1", created_at := -3601, updated_at := -3601 }

/-- A PROCESS row created 3599 seconds before the sweep at time 0. -/
def row3599 : SignalRecord :=
  { row3601 with id := 2, telegram_message_id := 11, content_hash := "h2",
                 created_at := -3599, updated_at := -3599 }

/-- A DONE row older than the window, which the sweep must not touch. -/
def rowDone : SignalRecord :=
  { row3601 with id := 3, telegram_message_id := 12, content_hash := "h3",
                 status := SignalStatus.DONE }

/-- The store holding the three boundary rows for the sweep witness. -/
def sweepStore : Store := { records := [row3601, row3599, rowDone], next_id := 4 }

/-- Witness for C7 at the 3600-second window boundary: the row created 3601
seconds ago expires, the one created 3599 seconds ago stays, the DONE row
stays, and the returned count is the number of expired rows (here 1). -/
theorem C7_expiry_sweep_witness :
    expired_row 0 row3601 ∈ (expire_old_signals sweepStore 3600 0).1.records ∧
    row3599 ∈ (expire_old_signals sweepStore 3600 0).1.records ∧
    rowDone ∈ (expire_old_signals sweepStore 3600 0).1.records ∧
    (expire_old_signals sweepStore 3600 0).2 =
      (sweepStore.records.filter (should_expire 3600 0)).length ∧
    (sweepStore.records.filter (should_expire 3600 0)).length = 1 :=
  ⟨(C7_expiry_sweep sweepStore 3600 0).2.2.1 row3601 (by decide)
      (Or.inl rfl) (by decide),
   (C7_expiry_sweep sweepStore 3600 0).2.2.2.1 row3599 (by decide)
      (Or.inl rfl) (by decide),
   (C7_expiry_sweep sweepStore 3600 0).2.2.2.2.1 rowDone (by decide)
      (Or.inl rfl),
   (C7_expiry_sweep sweepStore 3600 0).2.1,
   by decide⟩

/-- C5: extraction is total — `parse` returns `none` exactly when one of the
five mandatory fields (an allowed symbol, a direction, an entry, a stop
loss, at least one take profit) cannot be located in the cleaned text, and
any returned signal is complete (every field populated, with a non-empty
take-profit list); being a total Lean function of type `Option ParsedSignal`
it never raises, matching the source's catch-all `except` which converts
any internal exception into `None`. -/
theorem C5_extraction_total (E : Extractors) (allowed_symbols : List String)
    (text : String) :
    (parse E allowed_symbols text = none ↔
      ((∀ s, E.extract_symbol (clean_text text) = some s →
          s = "" ∨ s ∉ allowed_symbols) ∨
       (∀ d, E.extract_direction (clean_text text) = some d → d = "") ∨
       E.extract_entry_range (clean_text text) = none ∨
       E.extract_stop_loss (clean_text text) = none ∨
       E.extract_take_profits (clean_text text) = [])) ∧
    (∀ out, parse E allowed_symbols text = some out →
      out.take_profits ≠ []) := by
  constructor
  · simp only [parse]
    cases hs : E.extract_symbol (clean_text text) with
    | none => simp
    | some s =>
      by_cases hok : s = "" ∨ s ∉ allowed_symbols
      · simp [hok]
      · simp only [if_neg hok]
        cases hd : E.extract_direction (clean_text text) with
        | none => simp
        | some d =>
          by_cases hde : d = ""
          · simp [hde, hok]
          · simp only [if_neg hde]
            cases he : E.extract_entry_range (clean_text text) with
            | none => simp [hok, hde]
            | some e =>
              cases hsl : E.extract_stop_loss (clean_text text) with
              | none => simp [hok, hde]
              | some sl =>
                cases htp : E.extract_take_profits (clean_text text) with
                | nil => simp [hok, hde]
                | cons tp tps => simp [hok, hde]
  · intro out h
    simp only [parse] at h
    split at h
    · exact absurd h (by simp)
    · split at h
      · exact absurd h (by simp)
      · split at h
        · exact absurd h (by simp)
        · split at h
          · exact absurd h (by simp)
          · split at h
            · exact absurd h (by simp)
            · split at h
              · exact absurd h (by simp)
              · split at h
                · exact absurd h (by simp)
                · rw [← Option.some.inj h]
                  simp [adjust_prices]
                  split <;> simp

/-- Witness for C5: with the empty extractor bundle every text yields
`none`, and with the example bundle the parse succeeds and is complete. -/
theorem C5_extraction_total_witness :
    parse noneExtractors ["XAUUSD", "GOLD"] "hello" = none ∧
    exampleParsed.take_profits ≠ [] :=
  ⟨(C5_extraction_total noneExtractors ["XAUUSD", "GOLD"] "hello").1.mpr
      (Or.inr (Or.inr (Or.inr (Or.inl rfl)))),
   (C5_extraction_total exampleExtractors ["XAUUSD", "GOLD"]
      "XAUUSD BUY Entry: 2000 SL: 1990 TP: 2010").2 exampleParsed (by decide)⟩

/-- C6: a new (non-edit) message whose fingerprint matches the most recent
stored record with that fingerprint, received within 5 seconds of that
record's creation, is ignored as a duplicate burst with no store write; and
the duplicate-burst check never fires for edits — an edit never produces the
duplicate-ignored outcome. -/
theorem C6_duplicate_window (E : Extractors) (allowed_symbols : List String)
    (max_sl chat_id message_id : ℤ) (text : String) (now : ℤ) (st : Store) :
    (∀ p latest, parse E allowed_symbols text = some p →
      get_latest_signal_by_hash st p.generate_hash = some latest →
      now - latest.created_at < 5 →
      process_signal E allowed_symbols max_sl chat_id message_id text false
        now st = (.duplicateIgnored, st, [])) ∧
    ((process_signal E allowed_symbols max_sl chat_id message_id text true
        now st).1 ≠ .duplicateIgnored) := by
  constructor
  · intro p latest hp hlatest hwin
    simp [process_signal, hp, hlatest, hwin]
  · simp only [process_signal]
    repeat' split
    all_goals simp_all

/-- C8: each classifier invocation issues at most one store write, and every
ignored, rejected, not-a-signal or errored outcome issues none and leaves
the store exactly as it was — in particular a validation failure on an edit
leaves the existing record untouched. -/
theorem C8_at_most_one_write (E : Extractors) (allowed_symbols : List String)
    (max_sl chat_id message_id : ℤ) (text : String) (is_edit : Bool)
    (now : ℤ) (st : Store) :
    (process_signal E allowed_symbols max_sl chat_id message_id text is_edit
        now st).2.2.length ≤ 1 ∧
    (((process_signal E allowed_symbols max_sl chat_id message_id text
          is_edit now st).1 = .notASignal ∨
      (process_signal E allowed_symbols max_sl chat_id message_id text
          is_edit now st).1 = .duplicateIgnored ∨
      (process_signal E allowed_symbols max_sl chat_id message_id text
          is_edit now st).1 = .unchangedEditIgnored ∨
      (process_signal E allowed_symbols max_sl chat_id message_id text
          is_edit now st).1 = .alreadyExistsIgnored ∨
      (∃ e, (process_signal E allowed_symbols max_sl chat_id message_id text
          is_edit now st).1 = .rejected e) ∨
      (process_signal E allowed_symbols max_sl chat_id message_id text
          is_edit now st).1 = .errored) →
      (process_signal E allowed_symbols max_sl chat_id message_id text
          is_edit now st).2.1 = st ∧
      (process_signal E allowed_symbols max_sl chat_id message_id text
          is_edit now st).2.2 = []) := by
  simp only [process_signal]
  repeat' split
  all_goals simp_all

/-- A text the raw-text pre-filter drops although stripping the emphasis
markers would reveal the BUY keyword. -/
def markupText : String := "XAUUSD B*UY Entry 2000 SL 1990 TP 2010"

/-- C9: a message whose raw, uncleaned text does not contain both a filter
symbol and one of BUY/SELL/LONG/SHORT (case-insensitive) is dropped before
any parsing, independently of the extractors and of the store, with no store
write and the store returned untouched; and markup stripping can make such a
keyword appear, so a text the cleaned-text pipeline would accept is dropped
by the raw-text pre-filter (the concrete `markupText` fails the raw check
but passes it after `clean_text`). -/
theorem C9_raw_text_prefilter :
    (∀ (E : Extractors) (allowed_symbols filter_symbols : List String)
        (max_sl chat_id message_id : ℤ) (text : String) (is_edit : Bool)
        (now : ℤ) (st : Store),
      is_potential_signal filter_symbols text = false →
      process_event_safely E allowed_symbols filter_symbols max_sl chat_id
          message_id text is_edit now st =
        ((if pyStrip text = "" then Outcome.emptyIgnored
          else Outcome.prefiltered), st, [])) ∧
    is_potential_signal ["XAUUSD", "GOLD"] markupText = false ∧
    is_potential_signal ["XAUUSD", "GOLD"] (clean_text markupText) = true := by
  refine ⟨?_, by decide, by decide⟩
  intro E allowed_symbols filter_symbols max_sl chat_id message_id text
    is_edit now st h
  by_cases hst : pyStrip text = ""
  · simp [process_event_safely, hst]
  · simp [process_event_safely, hst, h]

/-- The store used by the pre-filter witness. -/
def prefilterStore : Store := { records := [rowDone], next_id := 4 }

/-- Witness for C9: the concrete markup text is dropped by the pre-filter
with the store unchanged and no writes. -/
theorem C9_raw_text_prefilter_witness :
    process_event_safely exampleExtractors ["XAUUSD", "GOLD"]
        ["XAUUSD", "GOLD"] 1500 1 100 markupText false 100 prefilterStore =
      ((if pyStrip markupText = "" then Outcome.emptyIgnored
        else Outcome.prefiltered), prefilterStore, []) :=
  C9_raw_text_prefilter.1 exampleExtractors ["XAUUSD", "GOLD"]
    ["XAUUSD", "GOLD"] 1500 1 100 markupText false 100 prefilterStore
    (by decide)

/-- C10: a validated edit whose fingerprint differs from the stored one sets
the existing record's status to MODIFY unconditionally — the model places no
constraint on the record's prior status, so DONE, EXPIRED, INVALID and ERROR
records are moved back to MODIFY as well; all other records are left
untouched. -/
theorem C10_edit_forces_modify (E : Extractors)
    (allowed_symbols : List String) (max_sl chat_id message_id : ℤ)
    (text : String) (now : ℤ) (st : Store) (p : ParsedSignal)
    (ex : SignalRecord) (schema : TradingSignalSchema)
    (hp : parse E allowed_symbols text = some p)
    (hex : get_signal_by_remote_id st chat_id message_id = some ex)
    (hne : ex.content_hash ≠ p.generate_hash)
    (hok : create_signal_schema message_id chat_id p text p.generate_hash
      .MODIFY max_sl = .ok schema) :
    process_signal E allowed_symbols max_sl chat_id message_id text true
        now st =
      (.updated ex.id, update_signal st ex.id schema now,
       [.update ex.id]) ∧
    (∀ r ∈ (update_signal st ex.id schema now).records, r.id = ex.id →
      r.status = .MODIFY) ∧
    (∀ r ∈ (update_signal st ex.id schema now).records, r.id ≠ ex.id →
      r ∈ st.records) := by
  refine ⟨?_, ?_, ?_⟩
  · simp only [process_signal, hp, hex]
    simp [beq_iff_eq, hne, hok]
  · intro r hr hid
    simp only [update_signal, List.mem_map] at hr
    obtain ⟨r₀, hr₀, heq⟩ := hr
    by_cases hb : r₀.id == ex.id
    · rw [← heq]
      simp [hb, apply_update]
    · rw [← heq] at hid
      simp [hb] at hid
      exact absurd hid (by simpa using hb)
  · intro r hr hid
    simp only [update_signal, List.mem_map] at hr
    obtain ⟨r₀, hr₀, heq⟩ := hr
    by_cases hb : r₀.id == ex.id
    · exfalso
      apply hid
      rw [← heq]
      simpa [hb, apply_update] using (by simpa using hb : r₀.id = ex.id)
    · rw [← heq]
      simpa [hb] using hr₀

/-- The stored record (in terminal status DONE) edited in the witnesses. -/
def exRecord : SignalRecord :=
  { id := 7, telegram_message_id := 100, telegram_channel_id := 1,
    symbol := "XAUUSD", direction := "BUY", entry_min := 200000,
    entry_max := 200000, stop_loss := 198900, take_profit_1 := 201000,
    take_profit_2 := none, take_profit_3 := none,
    status := SignalStatus.DONE, raw_message := "old text",
    content_hash := "oldhash", created_at := 0, updated_at := 0 }

/-- A store holding only `exRecord`. -/
def editStore : Store := { records := [exRecord], next_id := 8 }

/-- The schema the classifier builds for the witness edit. -/
def exampleSchemaModify : TradingSignalSchema :=
  { telegram_message_id := 100, telegram_channel_id := 1,
    symbol := "XAUUSD", direction := "BUY", entry_min := 200000,
    entry_max := 200000, stop_loss := 198950, take_profit_1 := 201050,
    take_profit_2 := none, take_profit_3 := none,
    raw_message := "XAUUSD BUY Entry: 2000 SL: 1990 TP: 2010",
    content_hash := exampleParsed.generate_hash,
    status := SignalStatus.MODIFY }

/-- Witness for C10: an edit of a DONE record with changed fingerprint is
accepted and the record (id 7) ends up with status MODIFY. -/
theorem C10_edit_forces_modify_witness :
    (process_signal exampleExtractors ["XAUUSD", "GOLD"] 1500 1 100
        "XAUUSD BUY Entry: 2000 SL: 1990 TP: 2010" true 50 editStore).1 =
      Outcome.updated 7 ∧
    (apply_update exRecord exampleSchemaModify 50).status =
      SignalStatus.MODIFY ∧
    exRecord.status = SignalStatus.DONE :=
  ⟨congrArg Prod.fst
      (C10_edit_forces_modify exampleExtractors ["XAUUSD", "GOLD"] 1500 1 100
        "XAUUSD BUY Entry: 2000 SL: 1990 TP: 2010" 50 editStore exampleParsed
        exRecord exampleSchemaModify (by decide) (by decide) (by decide)
        (by decide)).1,
   (C10_edit_forces_modify exampleExtractors ["XAUUSD", "GOLD"] 1500 1 100
        "XAUUSD BUY Entry: 2000 SL: 1990 TP: 2010" 50 editStore exampleParsed
        exRecord exampleSchemaModify (by decide) (by decide) (by decide)
        (by decide)).2.1
      (apply_update exRecord exampleSchemaModify 50) (by decide) (by decide),
   rfl⟩

/-- Helper: a successfully built schema carries the status it was given. -/
theorem mk_schema_status_eq (telegram_message_id telegram_channel_id : ℤ)
    (symbol direction : String) (entry_min entry_max stop_loss : ℤ)
    (take_profit_1 : ℤ) (take_profit_2 take_profit_3 : Option ℤ)
    (raw_message content_hash : String) (status : SignalStatus)
    (max_sl : ℤ) (s : TradingSignalSchema)
    (h : mk_trading_signal_schema telegram_message_id telegram_channel_id
      symbol direction entry_min entry_max stop_loss take_profit_1
      take_profit_2 take_profit_3 raw_message content_hash status max_sl =
      .ok s) : s.status = status := by
  rw [mk_trading_signal_schema] at h
  repeat' split at h
  all_goals first
    | rw [← Except.ok.inj h]
    | exact absurd h (by simp)

/-- Helper: `_create_signal_schema` hands its status argument through. -/
theorem create_schema_status_eq (message_id chat_id : ℤ)
    (parsed : ParsedSignal) (raw_text content_hash : String)
    (status : SignalStatus) (max_sl : ℤ) (s : TradingSignalSchema)
    (h : create_signal_schema message_id chat_id parsed raw_text content_hash
      status max_sl = .ok s) : s.status = status := by
  rw [create_signal_schema] at h
  split at h
  · exact absurd h (by simp)
  · split at h
    · rename_i s' heq
      rw [← CreateSchemaResult.ok.inj h]
      exact mk_schema_status_eq _ _ _ _ _ _ _ _ _ _ _ _ _ _ _ heq
    · exact absurd h (by simp)

/-- C1 counterexample: an edit of a message with no existing record is not
ignored — on the empty store, a parseable valid edit produces the
`created` outcome and inserts a record. -/
theorem C1_counterexample :
    (process_signal exampleExtractors ["XAUUSD", "GOLD"] 1500 1 100
        "XAUUSD BUY Entry: 2000 SL: 1990 TP: 2010" true 0
        { records := [], next_id := 0 }).1 = Outcome.created 0 ∧
    (process_signal exampleExtractors ["XAUUSD", "GOLD"] 1500 1 100
        "XAUUSD BUY Entry: 2000 SL: 1990 TP: 2010" true 0
        { records := [], next_id := 0 }).2.1.records.length = 1 := by
  decide

/-- C1 amended: an edited message whose (channel, message) pair has no
existing record is not ignored — the classifier falls through to the
new-message path: it validates and, on success, creates a new record with
status PROCESS (rejecting with no write on validation failure, erroring on
an empty take-profit list); the duplicate-burst check stays skipped because
the message is an edit. -/
theorem C1_edit_without_record_creates (E : Extractors)
    (allowed_symbols : List String) (max_sl chat_id message_id : ℤ)
    (text : String) (now : ℤ) (st : Store) (p : ParsedSignal)
    (hp : parse E allowed_symbols text = some p)
    (hnone : get_signal_by_remote_id st chat_id message_id = none) :
    process_signal E allowed_symbols max_sl chat_id message_id text true now
        st =
      (match create_signal_schema message_id chat_id p text p.generate_hash
          .PROCESS max_sl with
       | .indexError => (.errored, st, [])
       | .validationFailed e => (.rejected e, st, [])
       | .ok schema =>
         (.created st.next_id, (save_signal st schema now).2,
          [.create st.next_id])) ∧
    (∀ schema, create_signal_schema message_id chat_id p text
        p.generate_hash .PROCESS max_sl = .ok schema →
      schema.status = .PROCESS) := by
  constructor
  · simp only [process_signal, hp, hnone]
    repeat' split
    all_goals simp_all [save_signal]
  · intro schema h
    exact create_schema_status_eq _ _ _ _ _ _ _ _ h

/-- Witness for the amended C1 at the concrete edit on the empty store. -/
theorem C1_edit_without_record_creates_witness :
    process_signal exampleExtractors ["XAUUSD", "GOLD"] 1500 1 100
        "XAUUSD BUY Entry: 2000 SL: 1990 TP: 2010" true 0
        { records := [], next_id := 0 } =
      (match create_signal_schema 100 1 exampleParsed
          "XAUUSD BUY Entry: 2000 SL: 1990 TP: 2010"
          exampleParsed.generate_hash .PROCESS 1500 with
       | .indexError => (.errored, { records := [], next_id := 0 }, [])
       | .validationFailed e =>
         (.rejected e, { records := [], next_id := 0 }, [])
       | .ok schema =>
         (.created 0, (save_signal { records := [], next_id := 0 } schema 0).2,
          [.create 0])) :=
  (C1_edit_without_record_creates exampleExtractors ["XAUUSD", "GOLD"] 1500 1
    100 "XAUUSD BUY Entry: 2000 SL: 1990 TP: 2010" 0
    { records := [], next_id := 0 } exampleParsed (by decide) (by decide)).1

/-- A stored record sharing the example signal's fingerprint, created 2
seconds before the witness invocation. -/
def dupRecord : SignalRecord :=
  { id := 5, telegram_message_id := 99, telegram_channel_id := 1,
    symbol := "XAUUSD", direction := "BUY", entry_min := 200000,
    entry_max := 200000, stop_loss := 198950, take_profit_1 := 201050,
    take_profit_2 := none, take_profit_3 := none,
    status := SignalStatus.PROCESS, raw_message := "orig",
    content_hash := exampleParsed.generate_hash, created_at := 98,
    updated_at := 98 }

/-- A store holding only `dupRecord`. -/
def dupStore : Store := { records := [dupRecord], next_id := 6 }

/-- Witness for C6: the same signal re-broadcast as a new message 2 seconds
after `dupRecord` was created is ignored as a duplicate with no write. -/
theorem C6_duplicate_window_witness :
    process_signal exampleExtractors ["XAUUSD", "GOLD"] 1500 1 100
        "XAUUSD BUY Entry: 2000 SL: 1990 TP: 2010" false 100 dupStore =
      (.duplicateIgnored, dupStore, []) :=
  (C6_duplicate_window exampleExtractors ["XAUUSD", "GOLD"] 1500 1 100
      "XAUUSD BUY Entry: 2000 SL: 1990 TP: 2010" 100 dupStore).1
    exampleParsed dupRecord (by decide) (by decide) (by decide)

/-- Witness for C8 at a not-a-signal outcome: no write, store unchanged. -/
theorem C8_at_most_one_write_witness :
    (process_signal noneExtractors ["XAUUSD", "GOLD"] 1500 1 100 "hello"
        false 100 prefilterStore).2.2.length ≤ 1 ∧
    (process_signal noneExtractors ["XAUUSD", "GOLD"] 1500 1 100 "hello"
        false 100 prefilterStore).2.1 = prefilterStore ∧
    (process_signal noneExtractors ["XAUUSD", "GOLD"] 1500 1 100 "hello"
        false 100 prefilterStore).2.2 = [] :=
  ⟨(C8_at_most_one_write noneExtractors ["XAUUSD", "GOLD"] 1500 1 100 "hello"
      false 100 prefilterStore).1,
   ((C8_at_most_one_write noneExtractors ["XAUUSD", "GOLD"] 1500 1 100 "hello"
      false 100 prefilterStore).2 (Or.inl (by decide))).1,
   ((C8_at_most_one_write noneExtractors ["XAUUSD", "GOLD"] 1500 1 100 "hello"
      false 100 prefilterStore).2 (Or.inl (by decide))).2⟩

/-- Modelled from the claim's wording, for comparison with the source
validator: per direction, the five rules are checked in the stated order
(stop loss beyond entry, stop distance within bound, take-profit-1 beyond
entry, take-profit-2 beyond take-profit-1 when present, take-profit-3 beyond
take-profit-2 when present) and the first violated rule determines the
rejection; later rules are not evaluated. -/
def validatorSpec (direction : String)
    (entry_min entry_max stop_loss take_profit_1 : ℤ)
    (take_profit_2 take_profit_3 : Option ℤ) (max_sl : ℤ) :
    Except TradeLevelError Unit :=
  if direction = "BUY" then
    if ¬ stop_loss < entry_min then
      .error (.slNotBeyondEntry stop_loss entry_min)
    else if ¬ entry_min - stop_loss ≤ max_sl then
      .error (.slDistanceExceeded (entry_min - stop_loss) max_sl)
    else if ¬ entry_max < take_profit_1 then
      .error (.tp1NotBeyondEntry take_profit_1 entry_max)
    else
      match take_profit_2 with
      | none => .ok ()
      | some v2 =>
        if ¬ take_profit_1 < v2 then .error (.tp2NotBeyondTp1 v2 take_profit_1)
        else
          match take_profit_3 with
          | none => .ok ()
          | some v3 =>
            if ¬ v2 < v3 then .error (.tp3NotBeyondTp2 v3 v2) else .ok ()
  else
    if ¬ entry_max < stop_loss then
      .error (.slNotBeyondEntry stop_loss entry_max)
    else if ¬ stop_loss - entry_max ≤ max_sl then
      .error (.slDistanceExceeded (stop_loss - entry_max) max_sl)
    else if ¬ take_profit_1 < entry_min then
      .error (.tp1NotBeyondEntry take_profit_1 entry_min)
    else
      match take_profit_2 with
      | none => .ok ()
      | some v2 =>
        if ¬ v2 < take_profit_1 then .error (.tp2NotBeyondTp1 v2 take_profit_1)
        else
          match take_profit_3 with
          | none => .ok ()
          | some v3 =>
            if ¬ v3 < v2 then .error (.tp3NotBeyondTp2 v3 v2) else .ok ()


/-- Helper: on BUY candidates with positive optional take profits, the
source validator coincides with the claim's rule list. -/
theorem validate_buy_eq_spec (entry_min entry_max stop_loss take_profit_1 : ℤ)
    (take_profit_2 take_profit_3 : Option ℤ) (max_sl : ℤ)
    (h2 : ∀ v ∈ take_profit_2, 0 < v) (h3 : ∀ v ∈ take_profit_3, 0 < v)
    (h32 : take_profit_3.isSome → take_profit_2.isSome) :
    validate_trading_levels "BUY" entry_min entry_max stop_loss take_profit_1
        take_profit_2 take_profit_3 max_sl =
      validatorSpec "BUY" entry_min entry_max stop_loss take_profit_1
        take_profit_2 take_profit_3 max_sl := by
  rcases take_profit_2 with _ | v2 <;> rcases take_profit_3 with _ | v3
  · simp only [validate_trading_levels, validatorSpec, pyTruthy, not_lt,
      not_le, false_and, if_false, String.reduceEq, reduceIte, ite_false,
      ite_true, if_true, eq_self_iff_true]
    try (split_ifs <;> first | rfl | omega | simp_all)
  · simp at h32
  · have hv2 : v2 ≠ 0 := by
      have := h2 v2 rfl
      omega
    simp only [validate_trading_levels, validatorSpec, pyTruthy, hv2, not_lt,
      not_le, Option.getD_some, bne_iff_ne, ne_eq, not_false_eq_true,
      true_and, false_and, and_false, if_false, String.reduceEq, reduceIte,
      ite_false, ite_true, if_true, eq_self_iff_true]
    try (split_ifs <;> first | rfl | omega | simp_all)
  · have hv2 : v2 ≠ 0 := by
      have := h2 v2 rfl
      omega
    have hv3 : v3 ≠ 0 := by
      have := h3 v3 rfl
      omega
    simp only [validate_trading_levels, validatorSpec, pyTruthy, hv2, hv3,
      not_lt, not_le, Option.getD_some, bne_iff_ne, ne_eq, not_false_eq_true,
      true_and, false_and, and_false, if_false, String.reduceEq, reduceIte,
      ite_false, ite_true, if_true, eq_self_iff_true]

/-- Helper: the SELL direction counterpart of `validate_buy_eq_spec`. -/
theorem validate_sell_eq_spec
    (entry_min entry_max stop_loss take_profit_1 : ℤ)
    (take_profit_2 take_profit_3 : Option ℤ) (max_sl : ℤ)
    (h2 : ∀ v ∈ take_profit_2, 0 < v) (h3 : ∀ v ∈ take_profit_3, 0 < v)
    (h32 : take_profit_3.isSome → take_profit_2.isSome) :
    validate_trading_levels "SELL" entry_min entry_max stop_loss take_profit_1
        take_profit_2 take_profit_3 max_sl =
      validatorSpec "SELL" entry_min entry_max stop_loss take_profit_1
        take_profit_2 take_profit_3 max_sl := by
  rcases take_profit_2 with _ | v2 <;> rcases take_profit_3 with _ | v3
  · simp only [validate_trading_levels, validatorSpec, pyTruthy, not_lt,
      not_le, false_and, if_false, String.reduceEq, reduceIte, ite_false,
      ite_true, if_true, eq_self_iff_true]
    try (split_ifs <;> first | rfl | omega | simp_all)
  · simp at h32
  · have hv2 : v2 ≠ 0 := by
      have := h2 v2 rfl
      omega
    simp only [validate_trading_levels, validatorSpec, pyTruthy, hv2, not_lt,
      not_le, Option.getD_some, bne_iff_ne, ne_eq, not_false_eq_true,
      true_and, false_and, and_false, if_false, String.reduceEq, reduceIte,
      ite_false, ite_true, if_true, eq_self_iff_true]
    try (split_ifs <;> first | rfl | omega | simp_all)
  · have hv2 : v2 ≠ 0 := by
      have := h2 v2 rfl
      omega
    have hv3 : v3 ≠ 0 := by
      have := h3 v3 rfl
      omega
    simp only [validate_trading_levels, validatorSpec, pyTruthy, hv2, hv3,
      not_lt, not_le, Option.getD_some, bne_iff_ne, ne_eq, not_false_eq_true,
      true_and, false_and, and_false, if_false, String.reduceEq, reduceIte,
      ite_false, ite_true, if_true, eq_self_iff_true]

/-- Helper: acceptance condition of the source validator on BUY. -/
theorem validate_buy_ok_iff (entry_min entry_max stop_loss take_profit_1 : ℤ)
    (take_profit_2 take_profit_3 : Option ℤ) (max_sl : ℤ)
    (h2 : ∀ v ∈ take_profit_2, 0 < v) (h3 : ∀ v ∈ take_profit_3, 0 < v)
    (h32 : take_profit_3.isSome → take_profit_2.isSome) :
    validate_trading_levels "BUY" entry_min entry_max stop_loss take_profit_1
        take_profit_2 take_profit_3 max_sl = .ok () ↔
      stop_loss < entry_min ∧ entry_min - stop_loss ≤ max_sl ∧
      entry_max < take_profit_1 ∧
      (∀ v ∈ take_profit_2, take_profit_1 < v) ∧
      (∀ v2 ∈ take_profit_2, ∀ v3 ∈ take_profit_3, v2 < v3) := by
  rw [validate_buy_eq_spec entry_min entry_max stop_loss take_profit_1
    take_profit_2 take_profit_3 max_sl h2 h3 h32]
  rcases take_profit_2 with _ | v2 <;> rcases take_profit_3 with _ | v3
  · simp only [validatorSpec, eq_self_iff_true, if_true]
    split_ifs <;> simp <;> omega
  · simp at h32
  · simp only [validatorSpec, eq_self_iff_true, if_true]
    split_ifs <;> simp <;> omega
  · simp only [validatorSpec, eq_self_iff_true, if_true]
    split_ifs <;> simp <;> omega

/-- Helper fact: the direction strings differ. -/
theorem sell_ne_buy : ("SELL" : String) ≠ "BUY" := by decide

/-- Helper: acceptance condition of the source validator on SELL. -/
theorem validate_sell_ok_iff (entry_min entry_max stop_loss take_profit_1 : ℤ)
    (take_profit_2 take_profit_3 : Option ℤ) (max_sl : ℤ)
    (h2 : ∀ v ∈ take_profit_2, 0 < v) (h3 : ∀ v ∈ take_profit_3, 0 < v)
    (h32 : take_profit_3.isSome → take_profit_2.isSome) :
    validate_trading_levels "SELL" entry_min entry_max stop_loss take_profit_1
        take_profit_2 take_profit_3 max_sl = .ok () ↔
      entry_max < stop_loss ∧ stop_loss - entry_max ≤ max_sl ∧
      take_profit_1 < entry_min ∧
      (∀ v ∈ take_profit_2, v < take_profit_1) ∧
      (∀ v2 ∈ take_profit_2, ∀ v3 ∈ take_profit_3, v3 < v2) := by
  rw [validate_sell_eq_spec entry_min entry_max stop_loss take_profit_1
    take_profit_2 take_profit_3 max_sl h2 h3 h32]
  rcases take_profit_2 with _ | v2 <;> rcases take_profit_3 with _ | v3
  · simp only [validatorSpec, eq_false sell_ne_buy, if_false]
    split_ifs <;> simp <;> omega
  · simp at h32
  · simp only [validatorSpec, eq_false sell_ne_buy, if_false]
    split_ifs <;> simp <;> omega
  · simp only [validatorSpec, eq_false sell_ne_buy, if_false]
    split_ifs <;> simp <;> omega

/-- C2: on candidates with positive prices (which is all the pydantic `gt=0`
field constraints let through to the model validator) and take-profit-3
present only alongside take-profit-2 (as the classifier builds them from the
take-profit list), the source validator coincides with the claim's
first-violation rule list `validatorSpec` — so the rejection reason is the
first violated rule in the stated order and later rules are not evaluated —
and it accepts exactly when all rules of the direction hold: for BUY, stop
loss strictly below entry-min, stop distance within the bound, take profits
strictly ascending above entry-max; for SELL, the mirrored strict
inequalities. -/
theorem C2_validator_first_violation
    (entry_min entry_max stop_loss take_profit_1 : ℤ)
    (take_profit_2 take_profit_3 : Option ℤ) (max_sl : ℤ)
    (direction : String) (hdir : direction = "BUY" ∨ direction = "SELL")
    (hmax : 0 < max_sl) (h1 : 0 < take_profit_1)
    (h2 : ∀ v ∈ take_profit_2, 0 < v) (h3 : ∀ v ∈ take_profit_3, 0 < v)
    (h32 : take_profit_3.isSome → take_profit_2.isSome) :
    validate_trading_levels direction entry_min entry_max stop_loss
        take_profit_1 take_profit_2 take_profit_3 max_sl =
      validatorSpec direction entry_min entry_max stop_loss take_profit_1
        take_profit_2 take_profit_3 max_sl ∧
    (validate_trading_levels direction entry_min entry_max stop_loss
        take_profit_1 take_profit_2 take_profit_3 max_sl = .ok () ↔
      ((direction = "BUY" →
          stop_loss < entry_min ∧ entry_min - stop_loss ≤ max_sl ∧
          entry_max < take_profit_1 ∧
          (∀ v ∈ take_profit_2, take_profit_1 < v) ∧
          (∀ v2 ∈ take_profit_2, ∀ v3 ∈ take_profit_3, v2 < v3)) ∧
       (direction = "SELL" →
          entry_max < stop_loss ∧ stop_loss - entry_max ≤ max_sl ∧
          take_profit_1 < entry_min ∧
          (∀ v ∈ take_profit_2, v < take_profit_1) ∧
          (∀ v2 ∈ take_profit_2, ∀ v3 ∈ take_profit_3, v3 < v2)))) := by
  rcases hdir with hd | hd <;> subst hd
  · refine ⟨validate_buy_eq_spec entry_min entry_max stop_loss take_profit_1
      take_profit_2 take_profit_3 max_sl h2 h3 h32, ?_⟩
    rw [validate_buy_ok_iff entry_min entry_max stop_loss take_profit_1
      take_profit_2 take_profit_3 max_sl h2 h3 h32]
    constructor
    · intro hc
      exact ⟨fun _ => hc, fun hab => absurd hab (by decide)⟩
    · intro hc
      exact hc.1 rfl
  · refine ⟨validate_sell_eq_spec entry_min entry_max stop_loss take_profit_1
      take_profit_2 take_profit_3 max_sl h2 h3 h32, ?_⟩
    rw [validate_sell_ok_iff entry_min entry_max stop_loss take_profit_1
      take_profit_2 take_profit_3 max_sl h2 h3 h32]
    constructor
    · intro hc
      exact ⟨fun hab => absurd hab (by decide), fun _ => hc⟩
    · intro hc
      exact hc.2 rfl

/-- Witness for C2 at the concrete BUY candidate of the spec scenario
(entry 2000.00, stop 1989.50, take profit 2010.50, bound 15.00). -/
theorem C2_validator_first_violation_witness :
    validate_trading_levels "BUY" 200000 200000 198950 201050 none none
        1500 =
      validatorSpec "BUY" 200000 200000 198950 201050 none none 1500 ∧
    validate_trading_levels "BUY" 200000 200000 198950 201050 none none
        1500 = .ok () :=
  ⟨(C2_validator_first_violation 200000 200000 198950 201050 none none 1500
      "BUY" (Or.inl rfl) (by decide) (by decide) (by decide) (by decide)
      (by decide)).1,
   (C2_validator_first_violation 200000 200000 198950 201050 none none 1500
      "BUY" (Or.inl rfl) (by decide) (by decide) (by decide) (by decide)
      (by decide)).2.mpr (by decide)⟩
